/-
Verification development for the document-search prototype
(`backend/features/search/`): the lexical fallback scorer
(`_lexical_score`), the cached vector-index loader (`load_FAISS`),
the query translator (`text_to_cypher`), the knowledge-graph stub
(`search_knowledgegraph`) and the retrieval orchestrator
(`search_documents`) from `integrations.py`, together with the data
model of `models.py`.

Python strings are modelled as lists of code points (`List Nat`);
`str.lower` / `str.strip` / `str.split` / `str.count` are embedded at
the ASCII level, matching Python semantics on the inputs of interest.
Real-valued scores are modelled as rationals.  External collaborators
(the OpenAI client, the embeddings provider, the FAISS store) are
modelled as a deterministic environment of fallible operations
(`Except`), so that Python exception propagation becomes `Except`
error propagation.
-/
import Mathlib

namespace SearchApp

/-! ## Python string model -/

/-- A Python string, as its list of code points. -/
abbrev PyStr := List Nat

/-- Interpret a Lean string literal as a `PyStr`. -/
def ofString (s : String) : PyStr := s.data.map Char.toNat

/-- `str.lower` on one code point (ASCII range, as exercised here). -/
def pyLowerChar (c : Nat) : Nat := if 65 ≤ c ∧ c ≤ 90 then c + 32 else c

/-- `str.lower`. -/
def pyLower (s : PyStr) : PyStr := s.map pyLowerChar

/-- Python `str.isspace` / the whitespace set used by `str.strip` and
`str.split` with no argument (ASCII whitespace). -/
def pyIsSpace (c : Nat) : Bool :=
  c = 32 || c = 9 || c = 10 || c = 13 || c = 12 || c = 11

/-- `str.strip()`: remove leading and trailing whitespace. -/
def pyStrip (s : PyStr) : PyStr :=
  ((s.dropWhile pyIsSpace).reverse.dropWhile pyIsSpace).reverse

/-- `str.split()` with no argument: split on runs of whitespace,
discarding empty pieces (splitting at every whitespace character and
keeping only the non-empty fragments). -/
def pySplit (s : PyStr) : List PyStr :=
  (s.splitOnP pyIsSpace).filter (fun t => !t.isEmpty)

/-- Does `t` occur in `s` starting at index `i`? -/
def occursAt (t s : PyStr) (i : Nat) : Bool :=
  decide ((s.drop i).take t.length = t)

/-- The scanning loop of Python `str.count`: walk left to right,
skipping past each match.  `fuel` bounds the recursion depth; any
`fuel ≥ s.length` yields the exact count (each step consumes at least
one character of `s` when the needle is non-empty). -/
def countOccGo (t : PyStr) : Nat → PyStr → Nat
  | 0, _ => 0
  | _ + 1, [] => 0
  | fuel + 1, c :: rest =>
    if occursAt t (c :: rest) 0 then 1 + countOccGo t fuel ((c :: rest).drop t.length)
    else countOccGo t fuel rest

/-- Python `content.count(term)`: the number of NON-overlapping
occurrences of `t` in `s`, scanning left to right and skipping past
each match (`"aaaa".count("aa") == 2`).  For the empty needle Python
returns `len(s) + 1`. -/
def countOcc (t s : PyStr) : Nat :=
  if t = [] then s.length + 1
  else countOccGo t s.length s

/-- The number of possibly-overlapping occurrences of `t` in `s`:
the number of start positions at which `t` occurs
(`countOverlapping "aa" "aaaa" = 3`). -/
def countOverlapping (t s : PyStr) : Nat :=
  ((List.range (s.length + 1)).filter (occursAt t s)).length

/-! ## The lexical scorer (`_lexical_score` in `integrations.py`) -/

/-- `_lexical_score(query, content)`: lower-case and strip the query;
if empty, return `0.0`; otherwise split the normalized query on
whitespace and sum, over the terms, the number of (non-overlapping,
`str.count`) occurrences of each term in the lower-cased content. -/
def lexical_score (query content : PyStr) : ℚ :=
  let query_lower := pyStrip (pyLower query)
  if query_lower = [] then 0
  else
    let terms := pySplit query_lower
    let content_lower := pyLower content
    ((terms.map (fun term => countOcc term content_lower)).sum : ℕ)

/-- The scorer as the specification words it, with OVERLAPPING
substring counting: normalize the query by trimming and lower-casing;
if empty return 0; otherwise sum, over the whitespace-split terms, the
number of possibly-overlapping occurrences of each term in the
lower-cased content. -/
def lexical_score_spec_overlap (query content : PyStr) : ℚ :=
  let qn := pyLower (pyStrip query)
  if qn = [] then 0
  else ((pySplit qn).map (fun term => countOverlapping term (pyLower content))).sum

/-- The specification-shaped scorer with the counting rule corrected
to Python's non-overlapping `str.count`. -/
def lexical_score_spec (query content : PyStr) : ℚ :=
  let qn := pyLower (pyStrip query)
  if qn = [] then 0
  else ((pySplit qn).map (fun term => countOcc term (pyLower content))).sum

/-! ### Basic lemmas about the string model -/

theorem pyLowerChar_idem (c : Nat) : pyLowerChar (pyLowerChar c) = pyLowerChar c := by
  unfold pyLowerChar
  split
  · have : ¬ (65 ≤ c + 32 ∧ c + 32 ≤ 90) := by omega
    simp [this]
    omega
  · rfl

theorem pyLower_idem (s : PyStr) : pyLower (pyLower s) = pyLower s := by
  unfold pyLower
  rw [List.map_map]
  apply List.map_congr_left
  intro c _
  exact pyLowerChar_idem c

theorem pyIsSpace_pyLowerChar (c : Nat) : pyIsSpace (pyLowerChar c) = pyIsSpace c := by
  unfold pyLowerChar pyIsSpace
  split
  · rename_i h
    have h32 : ¬ (c = 32 || c = 9 || c = 10 || c = 13 || c = 12 || c = 11) = true := by
      simp; omega
    have h64 : ¬ (c + 32 = 32 || c + 32 = 9 || c + 32 = 10 || c + 32 = 13 ||
        c + 32 = 12 || c + 32 = 11) = true := by
      simp; omega
    simp only [Bool.not_eq_true] at h32 h64
    rw [h32, h64]
  · rfl

theorem pyStrip_pyLower_comm (s : PyStr) : pyStrip (pyLower s) = pyLower (pyStrip s) := by
  unfold pyStrip pyLower
  have hdrop : ∀ l : List Nat, (l.map pyLowerChar).dropWhile pyIsSpace =
      (l.dropWhile pyIsSpace).map pyLowerChar := by
    intro l
    induction l with
    | nil => rfl
    | cons c rest ih =>
      simp only [List.map_cons, List.dropWhile_cons, pyIsSpace_pyLowerChar]
      split
      · exact ih
      · rfl
  rw [hdrop, ← List.map_reverse, hdrop, List.map_reverse]

/-! ## Data model (`models.py`, langchain `Document`) -/

/-- `langchain_core.documents.Document`: a text body plus a metadata
mapping. -/
structure Document where
  page_content : PyStr
  metadata : List (PyStr × PyStr) := []
deriving DecidableEq, Repr

/-- `CypherQuery` (`models.py`): a single field holding the query
string; `str(cypher_query)` returns it verbatim. -/
structure CypherQuery where
  cypher : PyStr
deriving DecidableEq, Repr

/-- `SearchResult` (`models.py`): a document, a real-valued score and
an optional reason string. -/
structure SearchResult where
  document : Document
  score : ℚ
  reason : Option PyStr := none
deriving DecidableEq, Repr

/-! ## External collaborators

The OpenAI client, the embeddings provider and the FAISS store are
black boxes; an `Env` fixes one deterministic behaviour for each of
their operations.  A Python call that may raise is an `Except PyErr`
value: `.error e` is a raised exception, `.ok v` a normal return. -/

/-- A raised Python exception (carrying a message). -/
abbrev PyErr := PyStr

/-- An opaque `OpenAI` client instance. -/
structure LLMClient where
  tag : Nat := 0
deriving DecidableEq, Repr

/-- An opaque `OpenAIEmbeddings` instance. -/
structure Embeddings where
  tag : Nat := 0
deriving DecidableEq, Repr

/-- An opaque `FAISS` vector-store instance.  The tag distinguishes
instances so that "the identical index instance is returned" is a
meaningful statement. -/
structure FAISSIndex where
  tag : Nat := 0
deriving DecidableEq, Repr

/-- One deterministic behaviour of the external collaborators. -/
structure Env where
  /-- `OpenAI()`: client construction (may raise, e.g. on missing
  configuration). -/
  openAIInit : Except PyErr LLMClient
  /-- `PydanticOutputParser(pydantic_object=CypherQuery)` construction
  followed by the `parser.schema` attribute access used while building
  the prompt (may raise). -/
  parserSchema : Except PyErr PyStr
  /-- `llm.apredict(prompt)` (may raise: network, auth, ...). -/
  apredict : LLMClient → PyStr → Except PyErr PyStr
  /-- `parser.parse(raw)` (may raise on malformed model output). -/
  parseOutput : PyStr → Except PyErr CypherQuery
  /-- `OpenAIEmbeddings()` construction (may raise). -/
  embeddingsInit : Except PyErr Embeddings
  /-- `FAISS.from_documents(list(documents), embeddings)` (may raise). -/
  fromDocuments : List Document → Embeddings → Except PyErr FAISSIndex
  /-- `store.similarity_search_with_score(query, k)`: the list of
  (document, distance) hits (may raise). -/
  similaritySearch : FAISSIndex → PyStr → Nat → Except PyErr (List (Document × ℚ))

/-! ## `text_to_cypher` -/

/-- The body of the `try` block in `text_to_cypher`:
`raw = await llm.apredict(prompt); parsed = parser.parse(raw)`. -/
def predict_and_parse (env : Env) (llm : LLMClient) (prompt : PyStr) :
    Except PyErr CypherQuery :=
  match env.apredict llm prompt with
  | .error e => .error e
  | .ok raw => env.parseOutput raw

/-- `text_to_cypher(text)`: build the client, the parser and the
prompt OUTSIDE the `try` block (failures there propagate), then run
the model call and the output parse inside `try`, turning any failure
there into `None`. -/
def text_to_cypher (env : Env) (text : PyStr) : Except PyErr (Option CypherQuery) :=
  match env.openAIInit with
  | .error e => .error e
  | .ok llm =>
    match env.parserSchema with
    | .error e => .error e
    | .ok schema =>
      let prompt :=
        ofString "Convert the following natural-language query to a Cypher query. Return your answer as JSON matching this schema:\n"
          ++ schema ++ ofString "\n\nInput: " ++ text
      match predict_and_parse env llm prompt with
      | .ok parsed => .ok (some parsed)
      | .error _ => .ok none

/-! ## `load_FAISS` and its `functools.lru_cache()` -/

/-- The state of `functools.lru_cache()` wrapping `load_FAISS`:
entries most-recently-used first, keyed by the exact ordered document
tuple, plus a count of invocations of the wrapped build function.
`@lru_cache()` with no arguments defaults to `maxsize=128`. -/
structure CacheState where
  entries : List (List Document × FAISSIndex) := []
  builds : Nat := 0
deriving DecidableEq, Repr

/-- The default `maxsize` of `functools.lru_cache()`. -/
def lruMaxsize : Nat := 128

/-- Cache lookup: on a hit the entry moves to the most-recently-used
position. -/
def lruGet (st : CacheState) (k : List Document) : Option (FAISSIndex × CacheState) :=
  match st.entries.find? (fun e => decide (e.1 = k)) with
  | some (_, idx) =>
    some (idx, { st with entries := (k, idx) :: st.entries.filter (fun e => !decide (e.1 = k)) })
  | none => none

/-- Cache insert after a miss: the new entry becomes most recent and
the least-recently-used entry is evicted once the cache holds more
than `lruMaxsize` entries; the build counter increases. -/
def lruPut (st : CacheState) (k : List Document) (idx : FAISSIndex) : CacheState :=
  { entries := ((k, idx) :: st.entries.filter (fun e => !decide (e.1 = k))).take lruMaxsize
    builds := st.builds + 1 }

/-- `load_FAISS(documents)` under `@lru_cache()`: on a hit return the
cached `FAISS` instance; on a miss build `OpenAIEmbeddings()` and
`FAISS.from_documents(...)` (both may raise; nothing is cached on
failure) and cache the resulting instance. -/
def load_FAISS (env : Env) (st : CacheState) (documents : List Document) :
    Except PyErr (FAISSIndex × CacheState) :=
  match lruGet st documents with
  | some (idx, st₁) => .ok (idx, st₁)
  | none =>
    match env.embeddingsInit with
    | .error e => .error e
    | .ok embeddings =>
      match env.fromDocuments documents embeddings with
      | .error e => .error e
      | .ok idx => .ok (idx, lruPut st documents idx)

/-! ## `search_knowledgegraph` -/

/-- `search_knowledgegraph(cypher_query)`: a pure stub returning one
result over `Document(page_content=str(cypher_query))` with the fixed
score `0.9` and reason `"test"`. -/
def search_knowledgegraph (cypher_query : CypherQuery) : List SearchResult :=
  [{ document := { page_content := cypher_query.cypher }
     score := 9 / 10
     reason := some (ofString "test") }]

/-! ## `search_documents` -/

/-- The distance-to-score transform `1.0 / (1 + distance)`. -/
def toScore (distance : ℚ) : ℚ := 1 / (1 + distance)

/-- The descending-score order used by
`results.sort(key=lambda r: r.score, reverse=True)`. -/
def scoreGe (a b : SearchResult) : Prop := b.score ≤ a.score

instance : DecidableRel scoreGe := fun a b => inferInstanceAs (Decidable (b.score ≤ a.score))

instance : IsTotal SearchResult scoreGe := ⟨fun a b => le_total b.score a.score⟩

instance : IsTrans SearchResult scoreGe := ⟨fun _ _ _ h₁ h₂ => le_trans h₂ h₁⟩

/-- Python's `list.sort(key=lambda r: r.score, reverse=True)`: a
stable descending sort by score (insertion sort is stable, like
Python's sort). -/
def sortByScoreDesc (results : List SearchResult) : List SearchResult :=
  results.insertionSort scoreGe

/-- Build the `SearchResult` for one FAISS hit:
`SearchResult(document=doc, score=1.0 / (1 + distance))` (the `reason`
field keeps its default `None`). -/
def vectorResult (hit : Document × ℚ) : SearchResult :=
  { document := hit.1, score := toScore hit.2, reason := none }

/-- `search_documents(query, documents)`: return `[]` for the empty
query; otherwise build/fetch the FAISS store (failures propagate),
run the similarity search with `k = len(documents)` (failures
propagate), convert each hit with `1/(1+distance)`, attempt
`text_to_cypher` (whatever it raises also propagates), extend with the
knowledge-graph results when a `CypherQuery` came back, and return the
whole list sorted by score descending.  The resulting cache state is
threaded alongside the result list. -/
def search_documents (env : Env) (st : CacheState) (query : PyStr)
    (documents : List Document) :
    Except PyErr (List SearchResult × CacheState) :=
  if query = [] then .ok ([], st)
  else
    match load_FAISS env st documents with
    | .error e => .error e
    | .ok (store, st₁) =>
      match env.similaritySearch store query documents.length with
      | .error e => .error e
      | .ok faiss_hits =>
        let results := faiss_hits.map vectorResult
        match text_to_cypher env query with
        | .error e => .error e
        | .ok cypher_obj =>
          let results :=
            match cypher_obj with
            | some cq => results ++ search_knowledgegraph cq
            | none => results
          .ok (sortByScoreDesc results, st₁)

deriving instance DecidableEq for Except

/-! ## Concrete fixtures used by witnesses and counterexamples -/

/-- A sample document. -/
def docA : Document := { page_content := ofString "alpha doc" }

/-- Another sample document. -/
def docB : Document := { page_content := ofString "beta doc" }

/-- A healthy vector path (two hits, at distances `0` and `1`) with a
query-translation provider whose model call fails (so the caught
failure yields "no translation"). -/
def envVec : Env :=
  { openAIInit := .ok {}
    parserSchema := .ok []
    apredict := fun _ _ => .error (ofString "no provider configured")
    parseOutput := fun _ => .error (ofString "unparsable")
    embeddingsInit := .ok {}
    fromDocuments := fun _ _ => .ok { tag := 7 }
    similaritySearch := fun _ _ _ => .ok [(docA, 0), (docB, 1)] }

/-- As `envVec`, but the `OpenAI()` client constructor itself raises
(e.g. missing configuration). -/
def envBadInit : Env :=
  { envVec with openAIInit := .error (ofString "missing api key") }

/-- As `envVec`, but the translation succeeds end to end. -/
def envGraph : Env :=
  { envVec with
    apredict := fun _ _ => .ok (ofString "{}")
    parseOutput := fun _ => .ok { cypher := ofString "MATCH (n) RETURN n" } }

/-- As `envVec`, but the embeddings constructor raises, so the
vector-index build fails. -/
def envNoEmbed : Env :=
  { envVec with embeddingsInit := .error (ofString "embeddings down") }

/-- As `envVec`, but the similarity search raises. -/
def envNoSearch : Env :=
  { envVec with similaritySearch := fun _ _ _ => .error (ofString "index corrupt") }

/-- An environment for exercising the cache: building always succeeds
and the similarity search returns no hits. -/
def envBuild : Env :=
  { envVec with similaritySearch := fun _ _ _ => .ok [] }

/-- A one-document corpus whose text is the single code point `i`:
distinct `i` give distinct cache keys. -/
def keyDoc (i : Nat) : List Document := [{ page_content := [i] }]

/-- Run a sequence of `load_FAISS` calls, threading the cache state
(a failed call leaves the state unchanged, as `lru_cache` caches
nothing when the wrapped function raises). -/
def runLoads (env : Env) (st : CacheState) (calls : List (List Document)) : CacheState :=
  calls.foldl (fun s docs =>
    match load_FAISS env s docs with
    | .ok (_, s₁) => s₁
    | .error _ => s) st

/-- The cache state after loading 129 distinct one-document corpora
(one more than `lru_cache`'s default `maxsize` of 128). -/
def cacheAfter129 : CacheState := runLoads envBuild {} ((List.range 129).map keyDoc)

/-! ## Lemmas about the lexical scorer -/

theorem pySplit_ne_nil (s : PyStr) : ∀ t ∈ pySplit s, t ≠ [] := by
  intro t ht
  unfold pySplit at ht
  have := (List.mem_filter.mp ht).2
  simpa using this

theorem countOcc_nil_content (t : PyStr) (ht : t ≠ []) : countOcc t [] = 0 := by
  simp [countOcc, ht, countOccGo]

theorem lexical_score_eq_spec (q c : PyStr) : lexical_score q c = lexical_score_spec q c := by
  unfold lexical_score lexical_score_spec
  rw [pyStrip_pyLower_comm]

theorem lexical_score_nil_content (q : PyStr) : lexical_score q [] = 0 := by
  by_cases h : pyStrip (pyLower q) = []
  · simp [lexical_score, h]
  · simp only [lexical_score]
    rw [if_neg h]
    have hz : (List.map (fun term => countOcc term (pyLower []))
        (pySplit (pyStrip (pyLower q)))).sum = 0 := by
      apply List.sum_eq_zero
      intro x hx
      obtain ⟨t, hmem, rfl⟩ := List.mem_map.mp hx
      exact countOcc_nil_content t (pySplit_ne_nil _ t hmem)
    rw [hz, Nat.cast_zero]

/-- C2 (amended): the lexical scorer equals the reference definition
with NON-overlapping (Python `str.count`) substring counting: it is 0
when the query is empty after trimming and lower-casing, otherwise the
sum over the whitespace-split terms of the normalized query of the
number of non-overlapping occurrences of each term in the lower-cased
content; `score("", content) = 0`, `score(query, "") = 0`, and
`score("aa", "aaaa") = 2`. -/
theorem lexical_score_matches_spec :
    (∀ q c, lexical_score q c = lexical_score_spec q c) ∧
    (∀ c, lexical_score (ofString "") c = 0) ∧
    (∀ q, lexical_score q (ofString "") = 0) ∧
    lexical_score (ofString "aa") (ofString "aaaa") = 2 := by
  refine ⟨lexical_score_eq_spec, fun c => rfl, fun q => lexical_score_nil_content q, by decide⟩

/-- C2 (counterexample): the claim's overlapping counting rule fails
on the code: `_lexical_score("aa", "aaaa")` is 2 (Python `str.count`
is non-overlapping), not the 3 demanded by the overlapping reference
definition. -/
theorem lexical_score_overlap_counterexample :
    lexical_score (ofString "aa") (ofString "aaaa") = 2 ∧
    lexical_score_spec_overlap (ofString "aa") (ofString "aaaa") = 3 ∧
    lexical_score (ofString "aa") (ofString "aaaa") ≠
      lexical_score_spec_overlap (ofString "aa") (ofString "aaaa") := by
  refine ⟨by decide, by decide, by decide⟩

/-- C9: the lexical scorer is case-insensitive: lower-casing both the
query and the content beforehand does not change the score; in
particular `score("Cat", "The CAT sat") = score("cat", "the cat sat")`. -/
theorem lexical_score_case_insensitive :
    (∀ q c, lexical_score (pyLower q) (pyLower c) = lexical_score q c) ∧
    lexical_score (ofString "Cat") (ofString "The CAT sat") =
      lexical_score (ofString "cat") (ofString "the cat sat") := by
  constructor
  · intro q c
    unfold lexical_score
    rw [pyLower_idem, pyLower_idem]
  · decide

/-! ## Orchestrator theorems -/

/-- C8: for every document sequence (and every behaviour of the
external collaborators, including ones whose every operation raises),
`search_documents` with the empty query returns the empty list at
once, with the cache state untouched and no error: the vector index,
the translator and the graph search are never invoked. -/
theorem empty_query_returns_empty (env : Env) (st : CacheState) (docs : List Document) :
    search_documents env st [] docs = .ok ([], st) := rfl

/-- C10: only the exactly-empty string takes the early-exit guard:
any non-empty query — in particular one consisting only of whitespace
— proceeds to the vector-index build and then to the similarity
search, as witnessed by the propagation of a failure planted in the
embeddings constructor (first part) or in the similarity search
itself (second part). -/
theorem whitespace_query_not_short_circuited :
    (∀ (env : Env) (st : CacheState) (docs : List Document) (q : PyStr) (e : PyErr),
      q ≠ [] → (∀ c ∈ q, pyIsSpace c = true) →
      lruGet st docs = none → env.embeddingsInit = .error e →
      search_documents env st q docs = .error e) ∧
    (∀ (env : Env) (st : CacheState) (docs : List Document) (q : PyStr)
      (store : FAISSIndex) (st₁ : CacheState) (e : PyErr),
      q ≠ [] → (∀ c ∈ q, pyIsSpace c = true) →
      load_FAISS env st docs = .ok (store, st₁) →
      env.similaritySearch store q docs.length = .error e →
      search_documents env st q docs = .error e) := by
  constructor
  · intro env st docs q e hq _ hget hemb
    unfold search_documents
    rw [if_neg hq]
    unfold load_FAISS
    rw [hget, hemb]
  · intro env st docs q store st₁ e hq _ hload hsearch
    unfold search_documents
    rw [if_neg hq, hload]
    dsimp only
    rw [hsearch]

/-- Witness for C10: with a whitespace-only query `" "`, an empty
cache and an environment whose embeddings constructor raises, the
failure planted past the early-exit guard surfaces, so the guard was
not taken. -/
theorem whitespace_query_not_short_circuited_witness :
    search_documents envNoEmbed {} (ofString " ") [docA] =
      .error (ofString "embeddings down") :=
  whitespace_query_not_short_circuited.1 envNoEmbed {} [docA] (ofString " ")
    (ofString "embeddings down") (by decide) (by decide) rfl rfl

/-- C1: `text_to_cypher` builds the `OpenAI()` client and the prompt
OUTSIDE its `try` block, so a failure of client construction (e.g.
missing configuration, the very case its docstring promises to
swallow) escapes `text_to_cypher` and propagates out of
`search_documents` even though the whole vector path succeeded:
translation failure is not always contained. -/
theorem client_construction_failure_escapes :
    text_to_cypher envBadInit (ofString "find cats") =
      .error (ofString "missing api key") ∧
    search_documents envBadInit {} (ofString "find cats") [docA, docB] =
      .error (ofString "missing api key") := by
  exact ⟨rfl, by decide⟩

/-! ## Cache lemmas (C3) -/

theorem lruGet_head (st : CacheState) (k : List Document) (idx : FAISSIndex)
    (tail : List (List Document × FAISSIndex)) (h : st.entries = (k, idx) :: tail) :
    lruGet st k =
      some (idx, { st with entries := (k, idx) :: tail.filter (fun e => !decide (e.1 = k)) }) := by
  unfold lruGet
  rw [h]
  simp [List.find?_cons, List.filter_cons]

theorem load_FAISS_head (env : Env) (st : CacheState) (docs : List Document)
    (idx : FAISSIndex) (st₁ : CacheState)
    (h : load_FAISS env st docs = .ok (idx, st₁)) :
    ∃ tail, st₁.entries = (docs, idx) :: tail := by
  unfold load_FAISS at h
  cases hg : lruGet st docs with
  | some v =>
    rw [hg] at h
    obtain ⟨i, s⟩ := v
    simp only [Except.ok.injEq, Prod.mk.injEq] at h
    obtain ⟨hi, hs⟩ := h
    subst hi
    subst hs
    unfold lruGet at hg
    cases hf : st.entries.find? (fun e => decide (e.1 = docs)) with
    | some w =>
      rw [hf] at hg
      obtain ⟨a, b⟩ := w
      simp only [Option.some.injEq, Prod.mk.injEq] at hg
      obtain ⟨hb, hsteq⟩ := hg
      rw [← hsteq]
      exact ⟨_, by rw [hb]⟩
    | none => rw [hf] at hg; exact absurd hg (by simp)
  | none =>
    rw [hg] at h
    dsimp only at h
    cases he : env.embeddingsInit with
    | error e => rw [he] at h; exact absurd h (by simp)
    | ok emb =>
      rw [he] at h
      dsimp only at h
      cases hd : env.fromDocuments docs emb with
      | error e => rw [hd] at h; exact absurd h (by simp)
      | ok j =>
        rw [hd] at h
        simp only [Except.ok.injEq, Prod.mk.injEq] at h
        obtain ⟨hj, hs⟩ := h
        subst hj
        rw [← hs]
        unfold lruPut
        refine ⟨(st.entries.filter (fun e => !decide (e.1 = docs))).take 127, ?_⟩
        have h128 : lruMaxsize = 127 + 1 := rfl
        rw [h128, List.take_succ_cons]

/-- C3 (amended): `load_FAISS` is memoized keyed by the exact ordered
document tuple: after a successful call, an immediately following call
with the same document sequence is a cache hit — it performs no new
build (the build counter is unchanged) and returns the identical index
instance. -/
theorem load_FAISS_memoized (env : Env) (st : CacheState) (docs : List Document)
    (idx : FAISSIndex) (st₁ : CacheState)
    (h : load_FAISS env st docs = .ok (idx, st₁)) :
    ∃ st₂ : CacheState, load_FAISS env st₁ docs = .ok (idx, st₂) ∧
      st₂.builds = st₁.builds := by
  obtain ⟨tail, htail⟩ := load_FAISS_head env st docs idx st₁ h
  refine ⟨{ st₁ with
    entries := (docs, idx) :: tail.filter (fun e => !decide (e.1 = docs)) }, ?_, rfl⟩
  unfold load_FAISS
  rw [lruGet_head st₁ docs idx tail htail]

set_option maxRecDepth 4000 in
/-- Witness for C3 (amended): a concrete first call populates the
cache and the repeated call is served from it with no further build. -/
theorem load_FAISS_memoized_witness :
    ∃ st₂ : CacheState, load_FAISS envBuild
        { entries := [([{ page_content := [0] }], { tag := 7 })], builds := 1 }
        (keyDoc 0) = .ok ({ tag := 7 }, st₂) ∧
      st₂.builds = 1 :=
  load_FAISS_memoized envBuild {} (keyDoc 0) { tag := 7 }
    { entries := [([{ page_content := [0] }], { tag := 7 })], builds := 1 } (by decide)

set_option maxRecDepth 40000 in
/-- C3 (counterexample): the cache is NOT unbounded:
`functools.lru_cache()` defaults to `maxsize=128`, so after loading
129 distinct document sequences the cache holds only 128 entries, the
least-recently-used key has been evicted, and re-requesting it
triggers a second build for a previously seen document sequence. -/
theorem load_FAISS_cache_eviction :
    cacheAfter129.builds = 129 ∧
    cacheAfter129.entries.length = 128 ∧
    lruGet cacheAfter129 (keyDoc 0) = none ∧
    (runLoads envBuild cacheAfter129 [keyDoc 0]).builds = 130 := by
  refine ⟨by decide, by decide, by decide, by decide⟩

/-! ## Ranking theorems (C4, C5, C6, C7) -/

/-- C4: whatever the collaborators do, whenever `search_documents`
returns normally its result list is sorted by score in descending
order: every element's score is greater than or equal to the score of
every later element. -/
theorem search_documents_sorted_desc (env : Env) (st : CacheState) (q : PyStr)
    (docs : List Document) (res : List SearchResult) (st' : CacheState)
    (h : search_documents env st q docs = .ok (res, st')) :
    res.Pairwise scoreGe := by
  unfold search_documents at h
  by_cases hq : q = []
  · rw [if_pos hq] at h
    simp only [Except.ok.injEq, Prod.mk.injEq] at h
    rw [← h.1]
    exact List.Pairwise.nil
  · rw [if_neg hq] at h
    cases hl : load_FAISS env st docs with
    | error e => rw [hl] at h; exact absurd h (by simp)
    | ok v =>
      obtain ⟨store, st₁⟩ := v
      rw [hl] at h
      dsimp only at h
      cases hs : env.similaritySearch store q docs.length with
      | error e => rw [hs] at h; exact absurd h (by simp)
      | ok hits =>
        rw [hs] at h
        dsimp only at h
        cases ht : text_to_cypher env q with
        | error e => rw [ht] at h; exact absurd h (by simp)
        | ok t =>
          rw [ht] at h
          dsimp only at h
          simp only [Except.ok.injEq, Prod.mk.injEq] at h
          rw [← h.1]
          exact List.sorted_insertionSort scoreGe _

/-- Witness for C4: the concrete run over two documents at distances
0 and 1 produces a list whose scores 1 and 1/2 are descending. -/
theorem search_documents_sorted_desc_witness :
    List.Pairwise scoreGe
      [{ document := docA, score := 1, reason := none },
       { document := docB, score := 1/2, reason := none }] :=
  search_documents_sorted_desc envVec {} (ofString "q") [docA, docB]
    [{ document := docA, score := 1, reason := none },
     { document := docB, score := 1/2, reason := none }]
    { entries := [([docA, docB], { tag := 7 })], builds := 1 }
    (by norm_num [search_documents, load_FAISS, lruGet, lruPut, lruMaxsize, text_to_cypher,
      predict_and_parse, search_knowledgegraph, sortByScoreDesc, vectorResult, toScore,
      envVec, List.insertionSort, List.orderedInsert, scoreGe, ofString])

/-- C5: each vector hit at non-negative distance `d` gets score
`1/(1+d)`, which lies in `(0, 1]` and is strictly decreasing in `d`,
and its `SearchResult` carries no reason text; distances `0` and `1`
give scores `1` and `1/2`, and in the concrete two-document run the
distance-0 document ranks above the distance-1 document. -/
theorem vector_score_transform :
    (∀ d : ℚ, 0 ≤ d → 0 < toScore d ∧ toScore d ≤ 1) ∧
    (∀ d₁ d₂ : ℚ, 0 ≤ d₁ → d₁ < d₂ → toScore d₂ < toScore d₁) ∧
    toScore 0 = 1 ∧ toScore 1 = 1/2 ∧
    (∀ hit : Document × ℚ, (vectorResult hit).score = toScore hit.2 ∧
      (vectorResult hit).reason = none) ∧
    search_documents envVec {} (ofString "q") [docA, docB] =
      .ok ([{ document := docA, score := 1, reason := none },
            { document := docB, score := 1/2, reason := none }],
           { entries := [([docA, docB], { tag := 7 })], builds := 1 }) := by
  refine ⟨?_, ?_, by norm_num [toScore], by norm_num [toScore], fun hit => ⟨rfl, rfl⟩, ?_⟩
  · intro d hd
    unfold toScore
    constructor
    · exact div_pos one_pos (by linarith)
    · rw [div_le_one (by linarith)]
      linarith
  · intro d₁ d₂ h1 h2
    unfold toScore
    rw [div_lt_div_iff₀ (by linarith) (by linarith)]
    linarith
  · norm_num [search_documents, load_FAISS, lruGet, lruPut, lruMaxsize, text_to_cypher,
      predict_and_parse, search_knowledgegraph, sortByScoreDesc, vectorResult, toScore,
      envVec, List.insertionSort, List.orderedInsert, scoreGe, ofString]

/-- Witness for C5: the score bounds and the strict monotonicity,
instantiated at distances 0 and 1. -/
theorem vector_score_transform_witness :
    (0 < toScore 1 ∧ toScore 1 ≤ 1) ∧ toScore 1 < toScore 0 :=
  ⟨vector_score_transform.1 1 (by norm_num),
   vector_score_transform.2.1 0 1 (by norm_num) (by norm_num)⟩

/-- C6: when the query translator produces no translation (the caught
failure path, `text_to_cypher` returning `None`), `search_documents`
returns exactly the vector-path results — one `SearchResult` per
vector hit, no graph results — sorted descending by score. -/
theorem translator_failure_vector_only (env : Env) (st : CacheState) (q : PyStr)
    (docs : List Document) (store : FAISSIndex) (st₁ : CacheState)
    (hits : List (Document × ℚ))
    (hq : q ≠ [])
    (hload : load_FAISS env st docs = .ok (store, st₁))
    (hsearch : env.similaritySearch store q docs.length = .ok hits)
    (htrans : text_to_cypher env q = .ok none) :
    search_documents env st q docs = .ok (sortByScoreDesc (hits.map vectorResult), st₁) := by
  unfold search_documents
  rw [if_neg hq, hload]
  dsimp only
  rw [hsearch]
  dsimp only
  rw [htrans]

/-- Witness for C6: the concrete run in which the model call fails
(so translation yields `None`) returns the sorted vector results. -/
theorem translator_failure_vector_only_witness :
    search_documents envVec {} (ofString "q") [docA, docB] =
      .ok (sortByScoreDesc ([(docA, (0 : ℚ)), (docB, 1)].map vectorResult),
           { entries := [([docA, docB], { tag := 7 })], builds := 1 }) :=
  translator_failure_vector_only envVec {} (ofString "q") [docA, docB] { tag := 7 }
    { entries := [([docA, docB], { tag := 7 })], builds := 1 }
    [(docA, 0), (docB, 1)] (by decide) (by decide) rfl rfl

/-- C7: for a non-empty query (when both retrieval steps return), the
result list has exactly (number of vector hits) + (number of graph
hits, 0 when translation failed) elements — the orchestrator never
truncates — and the graph stub always contributes exactly one result
with the fixed score 0.9, which lies in [0, 1]. -/
theorem result_length_and_graph_stub :
    (∀ (env : Env) (st : CacheState) (q : PyStr) (docs : List Document)
      (store : FAISSIndex) (st₁ : CacheState) (hits : List (Document × ℚ))
      (t : Option CypherQuery),
      q ≠ [] →
      load_FAISS env st docs = .ok (store, st₁) →
      env.similaritySearch store q docs.length = .ok hits →
      text_to_cypher env q = .ok t →
      ∃ res, search_documents env st q docs = .ok (res, st₁) ∧
        res.length = hits.length +
          (match t with
           | some cq => (search_knowledgegraph cq).length
           | none => 0)) ∧
    (∀ cq : CypherQuery, search_knowledgegraph cq =
      [{ document := { page_content := cq.cypher }, score := 9/10,
         reason := some (ofString "test") }] ∧
      (search_knowledgegraph cq).length = 1 ∧
      (0 : ℚ) ≤ 9/10 ∧ (9/10 : ℚ) ≤ 1) := by
  constructor
  · intro env st q docs store st₁ hits t hq hload hsearch htrans
    cases t with
    | some cq =>
      refine ⟨sortByScoreDesc (hits.map vectorResult ++ search_knowledgegraph cq), ?_, ?_⟩
      · unfold search_documents
        rw [if_neg hq, hload]
        dsimp only
        rw [hsearch]
        dsimp only
        rw [htrans]
      · unfold sortByScoreDesc
        rw [List.length_insertionSort]
        simp
    | none =>
      refine ⟨sortByScoreDesc (hits.map vectorResult), ?_, ?_⟩
      · unfold search_documents
        rw [if_neg hq, hload]
        dsimp only
        rw [hsearch]
        dsimp only
        rw [htrans]
      · unfold sortByScoreDesc
        rw [List.length_insertionSort]
        simp
  · intro cq
    refine ⟨rfl, rfl, by norm_num, by norm_num⟩

/-- Witness for C7: a concrete run in which translation succeeds:
2 vector hits plus 1 graph hit give 3 results. -/
theorem result_length_and_graph_stub_witness :
    ∃ res, search_documents envGraph {} (ofString "q") [docA, docB] =
        .ok (res, { entries := [([docA, docB], { tag := 7 })], builds := 1 }) ∧
      res.length = 3 := by
  obtain ⟨res, hres, hlen⟩ := result_length_and_graph_stub.1 envGraph {}
    (ofString "q") [docA, docB] { tag := 7 }
    { entries := [([docA, docB], { tag := 7 })], builds := 1 }
    [(docA, 0), (docB, 1)] (some { cypher := ofString "MATCH (n) RETURN n" })
    (by decide) (by decide) rfl rfl
  exact ⟨res, hres, by simpa using hlen⟩
